import Mathlib

/-!
Shallow embedding of `src/shells/abstract.go` from gitlab-ci-multi-runner:
the `AbstractShell` build-script generator.  The `ShellWriter` capability is
modelled as an instruction list that each generator function produces; Go
functions that can panic (string slicing out of range) return `Option`.
-/

namespace Shells

/-- One abstract shell instruction, mirroring the `ShellWriter` interface of
`src/shells/abstract.go` (Variable, Command, Line, IfDirectory, IfFile, Else,
EndIf, Cd, RmDir, RmFile, Print, Notice, Warning, Error, EmptyLine).
Severity-leveled output carries its already-formatted text. -/
inductive Instr where
  | variableI (key value : String) (publicF internalF fileF : Bool)
  | command (cmd : String) (args : List String)
  | line (text : String)
  | ifDirectory (path : String)
  | ifFile (file : String)
  | els
  | endIf
  | cd (path : String)
  | rmDir (path : String)
  | rmFile (path : String)
  | print (text : String)
  | notice (text : String)
  | warning (text : String)
  | errorI (text : String)
  | emptyLine
deriving DecidableEq, Repr

/-- Dynamically-shaped configuration value, modelling Go's `interface\x7b\x7d`
as used for feature options (`info.Build.Options[...]`). A missing map key is
`null`, like a Go `nil` interface. -/
inductive GoValue where
  | null
  | str (s : String)
  | boolV (b : Bool)
  | list (xs : List GoValue)
  | mapV (entries : List (String × GoValue))

/-- Go map lookup `m[k]` on a string-keyed map: a missing key yields the nil
interface, modelled as `GoValue.null`. -/
def goMapLookup (m : List (String × GoValue)) (k : String) : GoValue :=
  match m with
  | [] => .null
  | (k2, v) :: rest => if k2 = k then v else goMapLookup rest k

/-- `common.BuildVariable`: key, value and the Public/Internal/File flags. -/
structure BuildVariable where
  key : String
  value : String
  publicF : Bool
  internalF : Bool
  fileF : Bool
deriving DecidableEq, Repr

/-- `common.RunnerConfig`, the fields read by the generator: URL and the
optional verbosity-disable flag (a `*bool` in Go). -/
structure RunnerConfig where
  url : String
  disableVerbose : Option Bool
deriving DecidableEq, Repr

/-- Artifacts record of a dependency (`otherBuild.Artifacts`): the archive
filename. -/
structure ArtifactsInfo where
  filename : String
deriving DecidableEq, Repr

/-- `common.BuildInfo`: one entry of `DependsOnBuilds` — numeric ID, name,
token, and an optional artifacts record (a pointer in Go, hence `Option`). -/
structure BuildInfo where
  id : Int
  name : String
  token : String
  artifacts : Option ArtifactsInfo
deriving DecidableEq, Repr

/-- `common.Build`, the fields the generator reads.  The methods
`GetAllVariables`, `CacheFile`, `CacheFileForRef "master"` and
`FullProjectDir` live in the external `common` package (outside `src/`); the
generator only consumes their results, so they are modelled as read-only
fields holding those results. -/
structure Build where
  repoURL : String
  sha : String
  refName : String
  allowGitFetch : Bool
  commands : String
  options : List (String × GoValue)
  dependsOnBuilds : List BuildInfo
  network : Bool
  token : String
  id : Int
  name : String
  runner : RunnerConfig
  tlsCAChain : String
  allVariables : List BuildVariable
  cacheFile : String
  cacheFileMaster : String
  fullProjectDir : String

/-- `common.ShellScriptInfo`, the fields the generator reads: the build and
the companion-executable path (`RunnerCommand`, possibly empty). -/
structure ShellScriptInfo where
  build : Build
  runnerCommand : String

/-- Modelled from the spec: `helpers.BoolOrDefault` (repository code outside
`src/`) — reads a possibly-absent boolean (`*bool`), substituting the default
when it is absent. -/
def boolOrDefault (v : Option Bool) (d : Bool) : Bool := v.getD d

/-- Modelled from the spec: `helpers.ToConfigMap` (repository code outside
`src/`) — interprets a dynamically-shaped value as a configuration mapping;
"not map-shaped input → not-configured outcome, not an error". -/
def toConfigMap : GoValue → Option (List (String × GoValue))
  | .mapV m => some m
  | _ => none

/-- Go string slicing `s[i:j]` (on ASCII text bytes and characters agree):
panics — modelled as `none` — unless `i ≤ j ≤ len(s)`. -/
def goStringSlice (s : String) (i j : Nat) : Option String :=
  if i ≤ j ∧ j ≤ s.length then some ⟨(s.data.drop i).take (j - i)⟩ else none

/-- Go `strings.TrimSpace` (standard library), on ASCII whitespace: drop
whitespace characters from both ends. -/
def goTrimSpace (s : String) : String :=
  ⟨((s.data.dropWhile Char.isWhitespace).reverse.dropWhile Char.isWhitespace).reverse⟩

/-- Worker for `goSplitNewline`: accumulate the current (reversed) piece. -/
def splitNewlineAux : List Char → List Char → List String
  | [], acc => [⟨acc.reverse⟩]
  | c :: cs, acc =>
    if c = '\n' then String.mk acc.reverse :: splitNewlineAux cs []
    else splitNewlineAux cs (c :: acc)

/-- Go `strings.Split(s, "\n")` (standard library): the pieces between
newlines; the empty string yields one empty piece. -/
def goSplitNewline (s : String) : List String := splitNewlineAux s.data []

/-- `writeExports`: emit every build variable, in supplied order. -/
def writeExports (info : ShellScriptInfo) : List Instr :=
  info.build.allVariables.map (fun v => Instr.variableI v.key v.value v.publicF v.internalF v.fileF)

/-- `writeTLSCAInfo`: when the TLS CA chain is non-empty, emit one
Public+Internal+File variable under the given key whose value is the chain. -/
def writeTLSCAInfo (build : Build) (key : String) : List Instr :=
  if build.tlsCAChain ≠ "" then
    [Instr.variableI key build.tlsCAChain true true true]
  else []

/-- `writeCloneCmd`: notice, remove the project dir, `git clone`, cd. -/
def writeCloneCmd (build : Build) (projectDir : String) : List Instr :=
  [Instr.notice "Cloning repository...",
   Instr.rmDir projectDir,
   Instr.command "git" ["clone", build.repoURL, projectDir],
   Instr.cd projectDir]

/-- `writeFetchCmd`: an if-directory conditional on the git dir whose
then-branch is the fetch sequence and whose else-branch is the clone
sequence. -/
def writeFetchCmd (build : Build) (projectDir gitDir : String) : List Instr :=
  [Instr.ifDirectory gitDir,
   Instr.notice "Fetching changes...",
   Instr.cd projectDir,
   Instr.command "git" ["clean", "-ffdx"],
   Instr.command "git" ["reset", "--hard"],
   Instr.command "git" ["remote", "set-url", "origin", build.repoURL],
   Instr.command "git" ["fetch", "origin"],
   Instr.els]
  ++ writeCloneCmd build projectDir
  ++ [Instr.endIf]

/-- `writeCheckoutCmd`: notice showing `build.Sha[0:8]` (which panics when the
Sha is shorter than 8) then `git checkout <sha>`. -/
def writeCheckoutCmd (build : Build) : Option (List Instr) :=
  match goStringSlice build.sha 0 8 with
  | none => none
  | some sha8 =>
    some [Instr.notice ("Checking out " ++ sha8 ++ " as " ++ build.refName ++ "..."),
          Instr.command "git" ["checkout", build.sha]]

/-- `extractFiles`: warning-and-skip when the companion executable path is
empty, otherwise a restore notice and the `extract --file` invocation. -/
def extractFiles (runnerCommand archiveType archivePath : String) : List Instr :=
  if runnerCommand = "" then
    [Instr.warning ("The " ++ archiveType ++ " is not supported in this executor.")]
  else
    [Instr.notice ("Restoring " ++ archiveType ++ "..."),
     Instr.command runnerCommand ["extract", "--file", archivePath]]

/-- `downloadArtifacts`: warning-and-skip when the companion executable path
is empty, otherwise a download notice and the authenticated
`artifacts --download` invocation. -/
def downloadArtifacts (runner : RunnerConfig) (build : BuildInfo)
    (runnerCommand archivePath : String) : List Instr :=
  if runnerCommand = "" then
    [Instr.warning "The artifacts downloading is not supported in this executor."]
  else
    [Instr.notice ("Downloading artifacts for " ++ build.name ++ " (" ++ toString build.id ++ ")..."),
     Instr.command runnerCommand
       ["artifacts", "--download", "--url", runner.url, "--token", build.token,
        "--id", toString build.id, "--file", archivePath]]

/-- `uploadArtifacts`: warning-and-skip when the companion executable path is
empty, otherwise an upload notice and the authenticated `artifacts`
invocation. -/
def uploadArtifacts (build : Build) (runnerCommand archivePath : String) : List Instr :=
  if runnerCommand = "" then
    [Instr.warning "The artifacts uploading is not supported in this executor."]
  else
    [Instr.notice "Uploading artifacts...",
     Instr.command runnerCommand
       ["artifacts", "--url", build.runner.url, "--token", build.token,
        "--id", toString build.id, "--file", archivePath]]

/-- `archiveFiles`: no-op on a non-map configuration; warning-and-skip on an
empty companion path; otherwise collect `--path` arguments from the `paths`
list and `--untracked` from the boolean, skip when no argument beyond
`archive --file <path>` was produced, else emit the notice and the archive
invocation. -/
def archiveFiles (list : GoValue) (runnerCommand archiveType archivePath : String) :
    List Instr :=
  match toConfigMap list with
  | none => []
  | some hash =>
    if runnerCommand = "" then
      [Instr.warning ("The " ++ archiveType ++ " is not supported in this executor.")]
    else
      let args0 := ["archive", "--file", archivePath]
      let args1 := args0 ++
        (match goMapLookup hash "paths" with
         | .list paths =>
             paths.foldr (fun p acc =>
               (match p with
                | .str file => ["--path", file]
                | _ => []) ++ acc) []
         | _ => [])
      let args2 := args1 ++
        (match goMapLookup hash "untracked" with
         | .boolV true => ["--untracked"]
         | _ => [])
      if args2.length ≤ 3 then []
      else
        [Instr.notice ("Archiving " ++ archiveType ++ "..."),
         Instr.command runnerCommand args2]

/-- Cache-restoration segment of `GeneratePreBuild` (lines 110–131): swap the
master-ref cache path into the primary slot when the primary is empty, then
emit the two-tier file-existence fallback. -/
def cacheRestore (info : ShellScriptInfo) : List Instr :=
  let cf := info.build.cacheFile
  let cf2 := info.build.cacheFileMaster
  let cacheFile := if cf = "" then cf2 else cf
  let cacheFile2 := if cf = "" then "" else cf2
  if cacheFile ≠ "" then
    [Instr.ifFile cacheFile]
    ++ extractFiles info.runnerCommand "cache" cacheFile
    ++ (if cacheFile2 ≠ "" then
          [Instr.els, Instr.ifFile cacheFile2]
          ++ extractFiles info.runnerCommand "cache" cacheFile2
          ++ [Instr.endIf]
        else [])
    ++ [Instr.endIf]
  else []

/-- Dependency-artifact segment of `GeneratePreBuild` (lines 134–142): for
each dependency in order, skip it when it has no artifacts record or an empty
filename, otherwise download, extract, and remove the local archive. -/
def depArtifacts (info : ShellScriptInfo) : List Instr :=
  (info.build.dependsOnBuilds.map (fun otherBuild =>
    match otherBuild.artifacts with
    | none => []
    | some a =>
      if a.filename = "" then []
      else
        downloadArtifacts info.build.runner otherBuild info.runnerCommand a.filename
        ++ extractFiles info.runnerCommand otherBuild.name a.filename
        ++ [Instr.rmFile a.filename])).flatten

/-- `GeneratePreBuild`: exports, the two TLS CA variables, fetch-or-clone,
checkout (which can panic on a short Sha, making the whole generation
`none`), cache restoration, dependency artifacts. -/
def GeneratePreBuild (info : ShellScriptInfo) : Option (List Instr) :=
  match writeCheckoutCmd info.build with
  | none => none
  | some checkout =>
    some (writeExports info
      ++ writeTLSCAInfo info.build "GIT_SSL_CAINFO"
      ++ writeTLSCAInfo info.build "CI_SERVER_TLS_CA_FILE"
      ++ (if info.build.allowGitFetch then
            writeFetchCmd info.build info.build.fullProjectDir
              (info.build.fullProjectDir ++ "/.git")
          else writeCloneCmd info.build info.build.fullProjectDir)
      ++ checkout
      ++ cacheRestore info
      ++ depArtifacts info)

/-- `GenerateCommands`: exports, cd into the build dir, then the trimmed
command block line by line, each line trimmed; with verbose echo on, a
`$ <line>` notice before each non-blank line and an empty-line marker before
each blank one; every line emitted literally regardless. -/
def GenerateCommands (info : ShellScriptInfo) : List Instr :=
  writeExports info
  ++ [Instr.cd info.build.fullProjectDir]
  ++ ((goSplitNewline (goTrimSpace info.build.commands)).map (fun rawLine =>
        (if boolOrDefault info.build.runner.disableVerbose false = false then
           (if goTrimSpace rawLine ≠ "" then [Instr.notice ("$ " ++ goTrimSpace rawLine)]
            else [Instr.emptyLine])
         else [])
        ++ [Instr.line (goTrimSpace rawLine)])).flatten

/-- `GeneratePostBuild`: exports, cd, the server TLS CA variable, cache
archival when a primary cache path resolves, and — only with the Network
capability — artifact archival, then a file-existence conditional under which
the archive is uploaded and a `RmFile` on the (misspelled) literal
"aritfacts.zip" is emitted. -/
def GeneratePostBuild (info : ShellScriptInfo) : List Instr :=
  writeExports info
  ++ [Instr.cd info.build.fullProjectDir]
  ++ writeTLSCAInfo info.build "CI_SERVER_TLS_CA_FILE"
  ++ (if info.build.cacheFile ≠ "" then
        archiveFiles (goMapLookup info.build.options "cache") info.runnerCommand
          "cache" info.build.cacheFile
      else [])
  ++ (if info.build.network then
        archiveFiles (goMapLookup info.build.options "artifacts") info.runnerCommand
          "artifacts" "artifacts.zip"
        ++ [Instr.ifFile "artifacts.zip"]
        ++ uploadArtifacts info.build info.runnerCommand "artifacts.zip"
        ++ [Instr.rmFile "aritfacts.zip", Instr.endIf]
      else [])

/-! Concrete fixture inputs used to exercise the generators. -/

/-- A concrete runner configuration. -/
def baseRunner : RunnerConfig :=
  { url := "https://ci.example", disableVerbose := none }

/-- A concrete build exercising the default flags. -/
def baseBuild : Build :=
  { repoURL := "https://repo.git"
    sha := "0123456789abcdef"
    refName := "main"
    allowGitFetch := false
    commands := ""
    options := []
    dependsOnBuilds := []
    network := false
    token := "tok"
    id := 7
    name := "job"
    runner := baseRunner
    tlsCAChain := ""
    allVariables := []
    cacheFile := ""
    cacheFileMaster := ""
    fullProjectDir := "proj" }

/-- Build with the Network capability set, exercising the post-build
artifact step. -/
def infoC1 : ShellScriptInfo :=
  { build := { baseBuild with network := true }, runnerCommand := "helper" }

/-- Build with a non-empty TLS CA chain. -/
def infoC4 : ShellScriptInfo :=
  { build := { baseBuild with tlsCAChain := "certdata" }, runnerCommand := "helper" }

/-! Conditional-nesting checker used for the well-nestedness claim: a stack
of flags, one per open conditional, recording whether its `Else` has been
seen. -/

/-- Effect of one instruction on the open-conditional stack: `IfDirectory`
and `IfFile` push, `Else` flips the top flag (rejecting a second `Else` or
one with no open conditional), `EndIf` pops (rejecting an unmatched one);
everything else leaves the stack alone. -/
def nestStep (st : List Bool) (i : Instr) : Option (List Bool) :=
  match i with
  | .ifDirectory _ => some (false :: st)
  | .ifFile _ => some (false :: st)
  | .els =>
    match st with
    | false :: rest => some (true :: rest)
    | _ => none
  | .endIf =>
    match st with
    | _ :: rest => some rest
    | [] => none
  | _ => some st

/-- Run the nesting checker over a sequence from a given stack. -/
def checkNest (st : List Bool) : List Instr → Option (List Bool)
  | [] => some st
  | i :: l =>
    match nestStep st i with
    | none => none
    | some st2 => checkNest st2 l

/-- A sequence is well-nested when the checker accepts it starting and
ending with no open conditional. -/
def wellNested (l : List Instr) : Prop := checkNest [] l = some []

/-- Instructions that do not touch conditional structure. -/
def condFree (i : Instr) : Bool :=
  match i with
  | .ifDirectory _ => false
  | .ifFile _ => false
  | .els => false
  | .endIf => false
  | _ => true

/-- Fixture for the well-nestedness claim: fetch, two-tier cache, one
dependency and networked artifacts all active at once. -/
def infoC10 : ShellScriptInfo :=
  { build := { baseBuild with
      allowGitFetch := true
      cacheFile := "c1.zip"
      cacheFileMaster := "c2.zip"
      network := true
      options := [("artifacts", GoValue.mapV [("untracked", GoValue.boolV true)])]
      dependsOnBuilds := [{ id := 3, name := "dep", token := "dtok",
                            artifacts := some { filename := "dep.zip" } }] }
    runnerCommand := "helper" }

/-- Build with both cache tiers configured. -/
def infoC2 : ShellScriptInfo :=
  { build := { baseBuild with cacheFile := "a", cacheFileMaster := "b" }
    runnerCommand := "helper" }

/-- Build with git fetch allowed. -/
def infoC3 : ShellScriptInfo :=
  { build := { baseBuild with allowGitFetch := true }, runnerCommand := "" }

/-- Build with the command block of the spec's verbosity example. -/
def infoC5 : ShellScriptInfo :=
  { build := { baseBuild with commands := "  echo hi\n\n  ls  " }, runnerCommand := "" }

/-- Build with three dependencies, the second carrying an empty artifact
filename. -/
def infoC6 : ShellScriptInfo :=
  { build := { baseBuild with dependsOnBuilds :=
      [{ id := 1, name := "dep1", token := "t1", artifacts := some { filename := "f1.zip" } },
       { id := 2, name := "dep2", token := "t2", artifacts := some { filename := "" } },
       { id := 3, name := "dep3", token := "t3", artifacts := some { filename := "f3.zip" } }] }
    runnerCommand := "helper" }

/-- The text carried by a `line` instruction, for projecting the
literal-execution stream out of a sequence. -/
def lineText : Instr → Option String
  | .line t => some t
  | _ => none

/-! Helper lemmas shared by the claim theorems. -/

/-- With a Sha of at least 8 characters the checkout step succeeds and shows
the first 8 characters. -/
theorem writeCheckoutCmd_of_sha8 (build : Build) (h8 : 8 ≤ build.sha.length) :
    writeCheckoutCmd build =
      some [Instr.notice ("Checking out " ++ String.mk (build.sha.data.take 8)
              ++ " as " ++ build.refName ++ "..."),
            Instr.command "git" ["checkout", build.sha]] := by
  unfold writeCheckoutCmd goStringSlice
  simp [h8]

/-- With a Sha shorter than 8 characters the checkout step panics. -/
theorem writeCheckoutCmd_of_short_sha (build : Build) (h8 : ¬ 8 ≤ build.sha.length) :
    writeCheckoutCmd build = none := by
  unfold writeCheckoutCmd goStringSlice
  simp [h8]

/-- Normal form of `GeneratePreBuild` when the Sha is long enough. -/
theorem generatePreBuild_eq (info : ShellScriptInfo)
    (h8 : 8 ≤ info.build.sha.length) :
    GeneratePreBuild info = some (writeExports info
      ++ writeTLSCAInfo info.build "GIT_SSL_CAINFO"
      ++ writeTLSCAInfo info.build "CI_SERVER_TLS_CA_FILE"
      ++ (if info.build.allowGitFetch then
            writeFetchCmd info.build info.build.fullProjectDir
              (info.build.fullProjectDir ++ "/.git")
          else writeCloneCmd info.build info.build.fullProjectDir)
      ++ [Instr.notice ("Checking out " ++ String.mk (info.build.sha.data.take 8)
            ++ " as " ++ info.build.refName ++ "..."),
          Instr.command "git" ["checkout", info.build.sha]]
      ++ cacheRestore info
      ++ depArtifacts info) := by
  unfold GeneratePreBuild
  rw [writeCheckoutCmd_of_sha8 info.build h8]

/-- `GeneratePreBuild` panics when the Sha is too short. -/
theorem generatePreBuild_none (info : ShellScriptInfo)
    (h8 : ¬ 8 ≤ info.build.sha.length) :
    GeneratePreBuild info = none := by
  unfold GeneratePreBuild
  rw [writeCheckoutCmd_of_short_sha info.build h8]

/-! Claim theorems. -/

/-- C9: `GeneratePreBuild` produces an instruction sequence if and only if
the build's Sha has at least 8 characters: the checkout notice
unconditionally slices `Sha[0:8]`, so a shorter Sha (including the empty
one) aborts generation with a panic. -/
theorem generatePreBuild_total_iff_sha8 (info : ShellScriptInfo) :
    (GeneratePreBuild info).isSome ↔ 8 ≤ info.build.sha.length := by
  by_cases h8 : 8 ≤ info.build.sha.length
  · rw [generatePreBuild_eq info h8]
    simp [h8]
  · rw [generatePreBuild_none info h8]
    simp [h8]

/-- C8: with an empty companion-executable path, each of the extract,
download and upload helpers emits exactly one warning and nothing else — in
particular no companion invocation and no failure. -/
theorem helpers_degrade_on_empty_runner_command (ty ap : String)
    (runner : RunnerConfig) (dep : BuildInfo) (build : Build) :
    extractFiles "" ty ap =
      [Instr.warning ("The " ++ ty ++ " is not supported in this executor.")] ∧
    downloadArtifacts runner dep "" ap =
      [Instr.warning "The artifacts downloading is not supported in this executor."] ∧
    uploadArtifacts build "" ap =
      [Instr.warning "The artifacts uploading is not supported in this executor."] := by
  refine ⟨?_, ?_, ?_⟩ <;> simp [extractFiles, downloadArtifacts, uploadArtifacts]

/-- C1: in the post-build sequence of a build with the Network capability,
the file removed after the upload is the literal "aritfacts.zip" — a
misspelling — so the uploaded archive "artifacts.zip" is never removed. -/
theorem postBuild_rmFile_misspelled :
    Instr.rmFile "aritfacts.zip" ∈ GeneratePostBuild infoC1 ∧
    Instr.rmFile "artifacts.zip" ∉ GeneratePostBuild infoC1 := by
  decide

/-- C4: `GeneratePreBuild` exports the TLS trust anchors right after the
build variables: a non-empty chain yields exactly the two
Public+Internal+File variables keyed "GIT_SSL_CAINFO" and
"CI_SERVER_TLS_CA_FILE" whose value is the chain text; an empty chain yields
none. -/
theorem tlsCAInfo_export (info : ShellScriptInfo)
    (h8 : 8 ≤ info.build.sha.length) :
    (∃ tail, GeneratePreBuild info = some (writeExports info
        ++ writeTLSCAInfo info.build "GIT_SSL_CAINFO"
        ++ writeTLSCAInfo info.build "CI_SERVER_TLS_CA_FILE" ++ tail)) ∧
    (info.build.tlsCAChain ≠ "" →
      writeTLSCAInfo info.build "GIT_SSL_CAINFO"
        ++ writeTLSCAInfo info.build "CI_SERVER_TLS_CA_FILE" =
      [Instr.variableI "GIT_SSL_CAINFO" info.build.tlsCAChain true true true,
       Instr.variableI "CI_SERVER_TLS_CA_FILE" info.build.tlsCAChain true true true]) ∧
    (info.build.tlsCAChain = "" →
      writeTLSCAInfo info.build "GIT_SSL_CAINFO" = [] ∧
      writeTLSCAInfo info.build "CI_SERVER_TLS_CA_FILE" = []) := by
  refine ⟨?_, ?_, ?_⟩
  · refine ⟨(if info.build.allowGitFetch then
        writeFetchCmd info.build info.build.fullProjectDir
          (info.build.fullProjectDir ++ "/.git")
      else writeCloneCmd info.build info.build.fullProjectDir)
      ++ [Instr.notice ("Checking out " ++ String.mk (info.build.sha.data.take 8)
            ++ " as " ++ info.build.refName ++ "..."),
          Instr.command "git" ["checkout", info.build.sha]]
      ++ cacheRestore info
      ++ depArtifacts info, ?_⟩
    rw [generatePreBuild_eq info h8]
    simp [List.append_assoc]
  · intro h
    simp [writeTLSCAInfo, h]
  · intro h
    simp [writeTLSCAInfo, h]

/-- C4 witness: at a concrete build whose chain is "certdata", the two
trust-anchor variables come out exactly as claimed. -/
theorem tlsCAInfo_export_witness :
    writeTLSCAInfo infoC4.build "GIT_SSL_CAINFO"
      ++ writeTLSCAInfo infoC4.build "CI_SERVER_TLS_CA_FILE" =
    [Instr.variableI "GIT_SSL_CAINFO" "certdata" true true true,
     Instr.variableI "CI_SERVER_TLS_CA_FILE" "certdata" true true true] :=
  (tlsCAInfo_export infoC4 (by decide)).2.1 (by decide)

/-- The nesting checker distributes over concatenation. -/
theorem checkNest_append (a b : List Instr) (st : List Bool) :
    checkNest st (a ++ b) = (checkNest st a).bind (fun st2 => checkNest st2 b) := by
  induction a generalizing st with
  | nil => rfl
  | cons i l ih =>
    simp only [List.cons_append, checkNest]
    cases nestStep st i with
    | none => rfl
    | some st2 => exact ih st2

/-- Condition-free instructions leave the stack alone. -/
theorem nestStep_condFree (st : List Bool) (i : Instr) (h : condFree i = true) :
    nestStep st i = some st := by
  cases i <;> simp [condFree] at h <;> rfl

/-- The checker passes over a condition-free sequence unchanged. -/
theorem checkNest_condFree (l : List Instr) (hl : ∀ i ∈ l, condFree i = true) :
    ∀ st, checkNest st l = some st := by
  induction l with
  | nil => intro st; rfl
  | cons i r ih =>
    intro st
    simp only [checkNest]
    rw [nestStep_condFree st i (hl i (List.mem_cons_self i r))]
    exact ih (fun j hj => hl j (List.mem_cons_of_mem i hj)) st

/-- The exports contain no conditional instruction. -/
theorem condFree_writeExports (info : ShellScriptInfo) :
    ∀ i ∈ writeExports info, condFree i = true := by
  intro i hi
  simp only [writeExports, List.mem_map] at hi
  obtain ⟨v, hv, rfl⟩ := hi
  rfl

/-- The TLS trust-anchor export contains no conditional instruction. -/
theorem condFree_writeTLSCAInfo (build : Build) (key : String) :
    ∀ i ∈ writeTLSCAInfo build key, condFree i = true := by
  intro i hi
  unfold writeTLSCAInfo at hi
  split at hi
  · simp at hi; subst hi; rfl
  · simp at hi

/-- The extract helper emits no conditional instruction. -/
theorem condFree_extractFiles (rc ty ap : String) :
    ∀ i ∈ extractFiles rc ty ap, condFree i = true := by
  intro i hi
  unfold extractFiles at hi
  split at hi
  · simp at hi; subst hi; rfl
  · simp at hi; rcases hi with rfl | rfl <;> rfl

/-- The download helper emits no conditional instruction. -/
theorem condFree_downloadArtifacts (runner : RunnerConfig) (dep : BuildInfo)
    (rc ap : String) :
    ∀ i ∈ downloadArtifacts runner dep rc ap, condFree i = true := by
  intro i hi
  unfold downloadArtifacts at hi
  split at hi
  · simp at hi; subst hi; rfl
  · simp at hi; rcases hi with rfl | rfl <;> rfl

/-- The upload helper emits no conditional instruction. -/
theorem condFree_uploadArtifacts (build : Build) (rc ap : String) :
    ∀ i ∈ uploadArtifacts build rc ap, condFree i = true := by
  intro i hi
  unfold uploadArtifacts at hi
  split at hi
  · simp at hi; subst hi; rfl
  · simp at hi; rcases hi with rfl | rfl <;> rfl

/-- The archive helper emits no conditional instruction. -/
theorem condFree_archiveFiles (v : GoValue) (rc ty ap : String) :
    ∀ i ∈ archiveFiles v rc ty ap, condFree i = true := by
  intro i hi
  simp only [archiveFiles] at hi
  split at hi
  · simp at hi
  · split at hi
    · simp at hi; subst hi; rfl
    · split at hi
      · simp at hi
      · simp at hi; rcases hi with rfl | rfl <;> rfl

/-- The dependency-artifact segment emits no conditional instruction. -/
theorem condFree_depArtifacts (info : ShellScriptInfo) :
    ∀ i ∈ depArtifacts info, condFree i = true := by
  intro i hi
  unfold depArtifacts at hi
  simp only [List.mem_flatten, List.mem_map] at hi
  obtain ⟨l, ⟨o, ho, rfl⟩, hil⟩ := hi
  rcases h : o.artifacts with _ | a
  · rw [h] at hil; simp at hil
  · rw [h] at hil
    dsimp only at hil
    by_cases hf : a.filename = ""
    · rw [if_pos hf] at hil; simp at hil
    · rw [if_neg hf] at hil
      simp only [List.append_assoc, List.mem_append] at hil
      rcases hil with hil | hil | hil
      · exact condFree_downloadArtifacts _ _ _ _ i hil
      · exact condFree_extractFiles _ _ _ i hil
      · simp at hil; subst hil; rfl

/-- Stack-preservation of the exports. -/
theorem checkNest_writeExports (info : ShellScriptInfo) (st : List Bool) :
    checkNest st (writeExports info) = some st :=
  checkNest_condFree _ (condFree_writeExports info) st

/-- Stack-preservation of the TLS trust-anchor export. -/
theorem checkNest_writeTLSCAInfo (build : Build) (key : String) (st : List Bool) :
    checkNest st (writeTLSCAInfo build key) = some st :=
  checkNest_condFree _ (condFree_writeTLSCAInfo build key) st

/-- Stack-preservation of the extract helper. -/
theorem checkNest_extractFiles (rc ty ap : String) (st : List Bool) :
    checkNest st (extractFiles rc ty ap) = some st :=
  checkNest_condFree _ (condFree_extractFiles rc ty ap) st

/-- Stack-preservation of the upload helper. -/
theorem checkNest_uploadArtifacts (build : Build) (rc ap : String) (st : List Bool) :
    checkNest st (uploadArtifacts build rc ap) = some st :=
  checkNest_condFree _ (condFree_uploadArtifacts build rc ap) st

/-- Stack-preservation of the archive helper. -/
theorem checkNest_archiveFiles (v : GoValue) (rc ty ap : String) (st : List Bool) :
    checkNest st (archiveFiles v rc ty ap) = some st :=
  checkNest_condFree _ (condFree_archiveFiles v rc ty ap) st

/-- Stack-preservation of the dependency-artifact segment. -/
theorem checkNest_depArtifacts (info : ShellScriptInfo) (st : List Bool) :
    checkNest st (depArtifacts info) = some st :=
  checkNest_condFree _ (condFree_depArtifacts info) st

/-- The clone sequence leaves the stack alone. -/
theorem checkNest_writeCloneCmd (build : Build) (pd : String) (st : List Bool) :
    checkNest st (writeCloneCmd build pd) = some st := rfl

/-- The fetch-or-clone conditional is internally balanced. -/
theorem checkNest_writeFetchCmd (build : Build) (pd gd : String) (st : List Bool) :
    checkNest st (writeFetchCmd build pd gd) = some st := rfl

/-- The cache-restoration segment is internally balanced. -/
theorem checkNest_cacheRestore (info : ShellScriptInfo) (st : List Bool) :
    checkNest st (cacheRestore info) = some st := by
  unfold cacheRestore
  by_cases h1 : info.build.cacheFile = "" <;> by_cases h2 : info.build.cacheFileMaster = "" <;>
    simp [h1, h2, checkNest_append, checkNest_extractFiles, checkNest, nestStep]

/-- C10: every instruction sequence produced by the three entry points is
well-nested: each IfDirectory/IfFile is closed by one matching EndIf with at
most one Else in between, and no Else or EndIf appears without an open
conditional. -/
theorem generators_well_nested (info : ShellScriptInfo) :
    (∀ l, GeneratePreBuild info = some l → wellNested l) ∧
    wellNested (GenerateCommands info) ∧
    wellNested (GeneratePostBuild info) := by
  refine ⟨?_, ?_, ?_⟩
  · intro l hl
    by_cases h8 : 8 ≤ info.build.sha.length
    · rw [generatePreBuild_eq info h8] at hl
      injection hl with hl
      subst hl
      by_cases hg : info.build.allowGitFetch <;>
        simp [wellNested, hg, checkNest_append, checkNest_writeExports,
              checkNest_writeTLSCAInfo, checkNest_writeFetchCmd, checkNest_writeCloneCmd,
              checkNest_cacheRestore, checkNest_depArtifacts, checkNest, nestStep]
    · rw [generatePreBuild_none info h8] at hl
      exact absurd hl (by simp)
  · apply checkNest_condFree
    intro i hi
    unfold GenerateCommands at hi
    simp only [List.append_assoc, List.mem_append] at hi
    rcases hi with hi | hi | hi
    · exact condFree_writeExports info i hi
    · simp at hi; subst hi; rfl
    · simp only [List.mem_flatten, List.mem_map] at hi
      obtain ⟨l, ⟨raw, hraw, rfl⟩, hil⟩ := hi
      simp only [List.mem_append] at hil
      rcases hil with hil | hil
      · split at hil
        · split at hil
          · simp at hil; subst hil; rfl
          · simp at hil; subst hil; rfl
        · simp at hil
      · simp at hil; subst hil; rfl
  · unfold wellNested GeneratePostBuild
    by_cases hc : info.build.cacheFile ≠ "" <;> by_cases hn : info.build.network <;>
      simp [hc, hn, checkNest_append, checkNest_writeExports, checkNest_writeTLSCAInfo,
            checkNest_archiveFiles, checkNest_uploadArtifacts, checkNest, nestStep]

/-- C10 witness: at a build exercising fetch, two-tier cache, a dependency
and networked artifacts at once, the generated pre-build sequence is
well-nested. -/
theorem generators_well_nested_witness :
    wellNested ((GeneratePreBuild infoC10).getD []) :=
  (generators_well_nested infoC10).1 ((GeneratePreBuild infoC10).getD []) rfl

/-- C2: two-tier cache restoration, emitted between checkout and the
dependency-artifact segment: with both paths configured (and distinct) the
secondary check sits nested inside the else-branch of the primary
file-existence check; with only the secondary configured its check is
emitted unnested at top level; with neither, nothing is emitted. -/
theorem cache_two_tier_fallback (info : ShellScriptInfo)
    (h8 : 8 ≤ info.build.sha.length) :
    (∃ head, GeneratePreBuild info =
        some (head ++ cacheRestore info ++ depArtifacts info)) ∧
    (info.build.cacheFile ≠ "" → info.build.cacheFileMaster ≠ "" →
      info.build.cacheFile ≠ info.build.cacheFileMaster →
      cacheRestore info =
        [Instr.ifFile info.build.cacheFile]
        ++ extractFiles info.runnerCommand "cache" info.build.cacheFile
        ++ [Instr.els, Instr.ifFile info.build.cacheFileMaster]
        ++ extractFiles info.runnerCommand "cache" info.build.cacheFileMaster
        ++ [Instr.endIf, Instr.endIf]) ∧
    (info.build.cacheFile = "" → info.build.cacheFileMaster ≠ "" →
      cacheRestore info =
        [Instr.ifFile info.build.cacheFileMaster]
        ++ extractFiles info.runnerCommand "cache" info.build.cacheFileMaster
        ++ [Instr.endIf]) ∧
    (info.build.cacheFile = "" → info.build.cacheFileMaster = "" →
      cacheRestore info = []) := by
  refine ⟨⟨_, generatePreBuild_eq info h8⟩, ?_, ?_, ?_⟩
  · intro h1 h2 _
    simp [cacheRestore, h1, h2]
  · intro h1 h2
    simp [cacheRestore, h1, h2]
  · intro h1 h2
    simp [cacheRestore, h1, h2]

/-- C2 witness: with primary path "a" and secondary "b", the cache segment
is the nested two-tier fallback. -/
theorem cache_two_tier_fallback_witness :
    cacheRestore infoC2 =
      [Instr.ifFile "a", Instr.notice "Restoring cache...",
       Instr.command "helper" ["extract", "--file", "a"],
       Instr.els, Instr.ifFile "b", Instr.notice "Restoring cache...",
       Instr.command "helper" ["extract", "--file", "b"],
       Instr.endIf, Instr.endIf] := by
  rw [(cache_two_tier_fallback infoC2 (by decide)).2.1 (by decide) (by decide) (by decide)]
  decide

/-- C3: repository synchronization: with AllowGitFetch false the pre-build
sequence contains no git-directory conditional and goes straight to the
unconditional clone; with AllowGitFetch true it emits the `.git`-directory
conditional whose then-branch is the fetch path and whose else-branch is the
clone sequence; both are followed by the unconditional checkout of the exact
Sha. -/
theorem repo_sync_fetch_or_clone (info : ShellScriptInfo)
    (h8 : 8 ≤ info.build.sha.length) :
    (info.build.allowGitFetch = false →
      (GeneratePreBuild info = some (writeExports info
        ++ writeTLSCAInfo info.build "GIT_SSL_CAINFO"
        ++ writeTLSCAInfo info.build "CI_SERVER_TLS_CA_FILE"
        ++ [Instr.notice "Cloning repository...",
            Instr.rmDir info.build.fullProjectDir,
            Instr.command "git" ["clone", info.build.repoURL, info.build.fullProjectDir],
            Instr.cd info.build.fullProjectDir]
        ++ [Instr.notice ("Checking out " ++ String.mk (info.build.sha.data.take 8)
              ++ " as " ++ info.build.refName ++ "..."),
            Instr.command "git" ["checkout", info.build.sha]]
        ++ cacheRestore info ++ depArtifacts info)
      ∧ ∀ p, Instr.ifDirectory p ∉ writeCloneCmd info.build info.build.fullProjectDir)) ∧
    (info.build.allowGitFetch = true →
      GeneratePreBuild info = some (writeExports info
        ++ writeTLSCAInfo info.build "GIT_SSL_CAINFO"
        ++ writeTLSCAInfo info.build "CI_SERVER_TLS_CA_FILE"
        ++ ([Instr.ifDirectory (info.build.fullProjectDir ++ "/.git"),
             Instr.notice "Fetching changes...",
             Instr.cd info.build.fullProjectDir,
             Instr.command "git" ["clean", "-ffdx"],
             Instr.command "git" ["reset", "--hard"],
             Instr.command "git" ["remote", "set-url", "origin", info.build.repoURL],
             Instr.command "git" ["fetch", "origin"],
             Instr.els]
            ++ [Instr.notice "Cloning repository...",
                Instr.rmDir info.build.fullProjectDir,
                Instr.command "git" ["clone", info.build.repoURL, info.build.fullProjectDir],
                Instr.cd info.build.fullProjectDir]
            ++ [Instr.endIf])
        ++ [Instr.notice ("Checking out " ++ String.mk (info.build.sha.data.take 8)
              ++ " as " ++ info.build.refName ++ "..."),
            Instr.command "git" ["checkout", info.build.sha]]
        ++ cacheRestore info ++ depArtifacts info)) := by
  constructor
  · intro h
    refine ⟨?_, ?_⟩
    · rw [generatePreBuild_eq info h8]
      simp [h, writeCloneCmd]
    · intro p
      simp [writeCloneCmd]
  · intro h
    rw [generatePreBuild_eq info h8]
    simp [h, writeFetchCmd, writeCloneCmd]

/-- C3 witness: at a concrete fetch-enabled build the full pre-build
sequence comes out with the conditional fetch-else-clone followed by the
checkout. -/
theorem repo_sync_fetch_or_clone_witness :
    GeneratePreBuild infoC3 = some
      [Instr.ifDirectory "proj/.git",
       Instr.notice "Fetching changes...",
       Instr.cd "proj",
       Instr.command "git" ["clean", "-ffdx"],
       Instr.command "git" ["reset", "--hard"],
       Instr.command "git" ["remote", "set-url", "origin", "https://repo.git"],
       Instr.command "git" ["fetch", "origin"],
       Instr.els,
       Instr.notice "Cloning repository...",
       Instr.rmDir "proj",
       Instr.command "git" ["clone", "https://repo.git", "proj"],
       Instr.cd "proj",
       Instr.endIf,
       Instr.notice "Checking out 01234567 as main...",
       Instr.command "git" ["checkout", "0123456789abcdef"]] := by
  rw [(repo_sync_fetch_or_clone infoC3 (by decide)).2 rfl]
  decide

/-- C6: the dependency-artifact segment closes the pre-build sequence and,
when the companion executable is available, consists of exactly one
download+extract+remove triple per dependency with a non-empty artifact
filename, in declared order, the download authenticated with that
dependency's own token and numeric ID against the runner's URL;
dependencies without an artifacts record or with an empty filename
contribute nothing — no instruction, no warning. -/
theorem depArtifacts_per_dependency (info : ShellScriptInfo)
    (h8 : 8 ≤ info.build.sha.length) (hrc : info.runnerCommand ≠ "") :
    (∃ head, GeneratePreBuild info = some (head ++ depArtifacts info)) ∧
    depArtifacts info =
      ((info.build.dependsOnBuilds.map (fun o =>
        match o.artifacts with
        | none => []
        | some a =>
          if a.filename = "" then []
          else
            [Instr.notice ("Downloading artifacts for " ++ o.name
               ++ " (" ++ toString o.id ++ ")..."),
             Instr.command info.runnerCommand
               ["artifacts", "--download", "--url", info.build.runner.url,
                "--token", o.token, "--id", toString o.id, "--file", a.filename],
             Instr.notice ("Restoring " ++ o.name ++ "..."),
             Instr.command info.runnerCommand ["extract", "--file", a.filename],
             Instr.rmFile a.filename])).flatten) := by
  constructor
  · exact ⟨_, generatePreBuild_eq info h8⟩
  · unfold depArtifacts
    refine congrArg List.flatten (List.map_congr_left ?_)
    intro o _
    rcases o.artifacts with _ | a
    · rfl
    · dsimp only
      by_cases hf : a.filename = ""
      · rw [if_pos hf, if_pos hf]
      · rw [if_neg hf, if_neg hf]
        unfold downloadArtifacts extractFiles
        rw [if_neg hrc, if_neg hrc]
        rfl

/-- C6 witness: three dependencies with the second one's filename empty
yield exactly two triples, in order, and nothing for the second. -/
theorem depArtifacts_per_dependency_witness :
    depArtifacts infoC6 =
      [Instr.notice "Downloading artifacts for dep1 (1)...",
       Instr.command "helper"
         ["artifacts", "--download", "--url", "https://ci.example", "--token", "t1",
          "--id", "1", "--file", "f1.zip"],
       Instr.notice "Restoring dep1...",
       Instr.command "helper" ["extract", "--file", "f1.zip"],
       Instr.rmFile "f1.zip",
       Instr.notice "Downloading artifacts for dep3 (3)...",
       Instr.command "helper"
         ["artifacts", "--download", "--url", "https://ci.example", "--token", "t3",
          "--id", "3", "--file", "f3.zip"],
       Instr.notice "Restoring dep3...",
       Instr.command "helper" ["extract", "--file", "f3.zip"],
       Instr.rmFile "f3.zip"] := by
  rw [(depArtifacts_per_dependency infoC6 (by decide) (by decide)).2]
  decide

/-- Collected `--path` arguments over a list of string patterns. -/
theorem archive_pathArgs (ps : List String) :
    (ps.map GoValue.str).foldr
      (fun p acc =>
        (match p with
         | GoValue.str file => ["--path", file]
         | _ => []) ++ acc) []
    = (ps.map fun p => ["--path", p]).flatten := by
  induction ps with
  | nil => rfl
  | cons p r ih => simp only [List.map_cons, List.foldr_cons, ih, List.flatten_cons]

/-- Each path pattern contributes two arguments. -/
theorem archive_pathArgs_length (ps : List String) :
    ((ps.map fun p => ["--path", p]).flatten).length = 2 * ps.length := by
  induction ps with
  | nil => rfl
  | cons p r ih =>
    simp only [List.map_cons, List.flatten_cons, List.length_append, ih,
               List.length_cons, List.length_nil]
    omega

/-- C7: the archive helper emits nothing on a non-map configuration, and
nothing when the configuration yields zero effective arguments (empty path
list and untracked false); otherwise it emits exactly a notice followed by
one archive invocation whose arguments are `archive`, `--file <path>`, one
`--path <pattern>` per entry in order, then `--untracked` iff the untracked
boolean is true. -/
theorem archiveFiles_contract (rc ty ap : String) (hrc : rc ≠ "")
    (v : GoValue) (ps : List String) (u : Bool) :
    (toConfigMap v = none → archiveFiles v rc ty ap = []) ∧
    (archiveFiles (GoValue.mapV [("paths", GoValue.list (ps.map GoValue.str)),
                                  ("untracked", GoValue.boolV u)]) rc ty ap =
      if ps = [] ∧ u = false then []
      else [Instr.notice ("Archiving " ++ ty ++ "..."),
            Instr.command rc (["archive", "--file", ap]
              ++ (ps.map fun p => ["--path", p]).flatten
              ++ (if u = true then ["--untracked"] else []))]) := by
  constructor
  · intro hnone
    unfold archiveFiles
    rw [hnone]
  · by_cases hps : ps = []
    · subst hps
      cases u <;> simp [archiveFiles, toConfigMap, goMapLookup, hrc]
    · rcases List.exists_cons_of_ne_nil hps with ⟨p, r, rfl⟩
      cases u <;>
        simp [archiveFiles, toConfigMap, goMapLookup, hrc, archive_pathArgs,
              List.length_append]

/-- C7 witness: the spec's example configuration `paths = ["dist"],
untracked = true` produces the notice and the exact invocation. -/
theorem archiveFiles_contract_witness :
    archiveFiles (GoValue.mapV [("paths", GoValue.list [GoValue.str "dist"]),
                                 ("untracked", GoValue.boolV true)])
        "helper" "artifacts" "artifacts.zip" =
      [Instr.notice "Archiving artifacts...",
       Instr.command "helper"
         ["archive", "--file", "artifacts.zip", "--path", "dist", "--untracked"]] := by
  have h := (archiveFiles_contract "helper" "artifacts" "artifacts.zip"
      (by decide) GoValue.null ["dist"] true).2
  simpa using h

/-- Projecting the `line` instructions out of the per-line emission blocks
recovers exactly the trimmed lines, in order, whatever the verbosity. -/
theorem filterMap_lineText_blocks (dv : Bool) (lines : List String) :
    ((lines.map (fun rawLine =>
        (if dv = false then
           (if goTrimSpace rawLine ≠ "" then [Instr.notice ("$ " ++ goTrimSpace rawLine)]
            else [Instr.emptyLine])
         else [])
        ++ [Instr.line (goTrimSpace rawLine)])).flatten).filterMap lineText
    = lines.map goTrimSpace := by
  induction lines with
  | nil => rfl
  | cons raw r ih =>
    simp only [List.map_cons, List.flatten_cons, List.filterMap_append, ih]
    cases dv <;> by_cases h : goTrimSpace raw = "" <;> simp [h, lineText]

/-- C5: `GenerateCommands` trims the whole command block and each physical
line, and passes every resulting line — blank or not — through for literal
execution exactly once, in order; with verbose echo on (the default), each
non-blank line is preceded by a `$ <line>` notice and each blank line by the
blank-line marker, as on the spec's example block; with verbose echo off,
only the literal line emissions occur. -/
theorem generateCommands_echo (info : ShellScriptInfo) :
    ((GenerateCommands info).filterMap lineText
      = (goSplitNewline (goTrimSpace info.build.commands)).map goTrimSpace) ∧
    (info.build.commands = "  echo hi\n\n  ls  " →
      (boolOrDefault info.build.runner.disableVerbose false = false →
        GenerateCommands info =
          writeExports info ++ [Instr.cd info.build.fullProjectDir]
          ++ [Instr.notice "$ echo hi", Instr.line "echo hi", Instr.emptyLine,
              Instr.line "", Instr.notice "$ ls", Instr.line "ls"]) ∧
      (boolOrDefault info.build.runner.disableVerbose false = true →
        GenerateCommands info =
          writeExports info ++ [Instr.cd info.build.fullProjectDir]
          ++ [Instr.line "echo hi", Instr.line "", Instr.line "ls"])) := by
  constructor
  · unfold GenerateCommands
    rw [List.append_assoc, List.filterMap_append, List.filterMap_append]
    rw [filterMap_lineText_blocks (boolOrDefault info.build.runner.disableVerbose false)]
    have hexp : (writeExports info).filterMap lineText = [] := by
      simp [writeExports, List.filterMap_map, lineText, Function.comp]
    rw [hexp]
    rfl
  · intro hc
    constructor
    · intro hv
      unfold GenerateCommands
      rw [hc, hv]
      congr 1
    · intro hv
      unfold GenerateCommands
      rw [hc, hv]
      congr 1

/-- C5 witness: on the example block with verbose echo on (the default),
the emission order is notice, line, blank marker, line, notice, line. -/
theorem generateCommands_echo_witness :
    GenerateCommands infoC5 =
      writeExports infoC5 ++ [Instr.cd infoC5.build.fullProjectDir]
      ++ [Instr.notice "$ echo hi", Instr.line "echo hi", Instr.emptyLine,
          Instr.line "", Instr.notice "$ ls", Instr.line "ls"] :=
  ((generateCommands_echo infoC5).2 rfl).1 rfl

end Shells
